import Mathlib

/-!
Shallow embedding of the Mitsubishi G50A integration core
(homeassistant/components/mitsubishi_g50a/g50a.py and const.py).

Conventions of the embedding:
* Python `None` and absent XML attributes are modelled by `Option.none`;
  `mnet.get("Attr")` results are `Option String`.
* Python `str(x)` / f-string interpolation of an optional string is `pyStr`.
* Temperatures are kept as the raw attribute strings; the `float(...)`
  conversion is abstracted away (no claim depends on numeric semantics).
* `time.time_ns()` is modelled by an explicit `now : Nat` parameter.
* The network is modelled by passing the already-parsed device response in
  (for `enumerate_zones`, a function from probed zone id to response), and
  returning the list of request bodies that would be POSTed.
* Python dicts are association lists with insert-or-replace semantics that
  preserve insertion order, as Python dicts do.
-/

set_option maxRecDepth 4000

namespace G50A

/-- Python str() / f-string rendering of an optional string: `none` prints
as the three-character string "None". -/
def pyStr : Option String → String
  | some s => s
  | none => "None"

/-- Python str.upper() for the ASCII strings this integration handles,
written character-wise so that it evaluates by kernel reduction. -/
def pyUpper (s : String) : String :=
  String.mk (s.data.map Char.toUpper)

/-- The HVACMode string enum from homeassistant.components.climate. -/
inductive HVACMode where
  | off
  | heat
  | cool
  | heat_cool
  | auto
  | dry
  | fan_only
  deriving DecidableEq, Repr

/-- The underlying string value of an HVACMode member. -/
def HVACMode.value : HVACMode → String
  | .off => "off"
  | .heat => "heat"
  | .cool => "cool"
  | .heat_cool => "heat_cool"
  | .auto => "auto"
  | .dry => "dry"
  | .fan_only => "fan_only"

/-- The HVACAction string enum from homeassistant.components.climate. -/
inductive HVACAction where
  | cooling
  | drying
  | fan
  | heating
  | idle
  | off
  deriving DecidableEq, Repr

/-- get_zone_name (g50a.py lines 17-26): static id-to-name table with the
fallback "Zone id". The str() applied to the argument is done by callers
via pyStr. -/
def get_zone_name (zone : String) : String :=
  if zone = "1" then "Living Room"
  else if zone = "2" then "Kitchen"
  else if zone = "3" then "Hallway"
  else "Zone " ++ zone

/-- map_hvac_mode_to_mode (g50a.py lines 29-33): FAN_ONLY goes to "FAN",
every other member to its value uppercased. -/
def map_hvac_mode_to_mode (hvac_mode : HVACMode) : String :=
  if hvac_mode = HVACMode.fan_only then "FAN"
  else pyUpper hvac_mode.value

/-- map_mode_to_hvac_mode (g50a.py lines 36-48): the drive check comes first,
then the mode table, with OFF as the default. -/
def map_mode_to_hvac_mode (mode : String) (drive : Option String) : HVACMode :=
  if drive = some "OFF" then HVACMode.off
  else if mode = "COOL" then HVACMode.cool
  else if mode = "HEAT" then HVACMode.heat
  else if mode = "FAN" then HVACMode.fan_only
  else if mode = "DRY" then HVACMode.dry
  else HVACMode.off

/-- map_mode_to_hvac_action (g50a.py lines 51-63). -/
def map_mode_to_hvac_action (mode : String) (drive : Option String) : HVACAction :=
  if drive = some "OFF" then HVACAction.idle
  else if mode = "COOL" then HVACAction.cooling
  else if mode = "HEAT" then HVACAction.heating
  else if mode = "FAN" then HVACAction.fan
  else if mode = "DRY" then HVACAction.drying
  else HVACAction.idle

/-- map_fan_mode_to_fan_speed (g50a.py lines 82-87). -/
def map_fan_mode_to_fan_speed (fan_mode : String) : String :=
  if fan_mode = "medium" then "MID1" else pyUpper fan_mode

/-- map_swing_to_air_direction (g50a.py lines 90-98). -/
def map_swing_to_air_direction (swing : String) : String :=
  if swing = "off" then "MID1"
  else if swing = "on" then "SWING"
  else if swing = "both" then "MID2"
  else pyUpper swing

/-- GET_COMMAND from const.py. -/
def GET_COMMAND : String := "getRequest"

/-- SET_COMMAND from const.py. -/
def SET_COMMAND : String := "setRequest"

/-- MAX_ZONES from const.py. -/
def MAX_ZONES : Nat := 10

/-- construct_request_xml (g50a.py lines 112-120), byte for byte including the
indentation of the triple-quoted f-string. -/
def construct_request_xml (command : String) (mnet_xml : String) : String :=
  "<?xml version=\"1.0\" encoding=\"UTF-8\"?>\n    <Packet>\n        <Command>"
    ++ command
    ++ "</Command>\n        <DatabaseManager>\n            "
    ++ mnet_xml
    ++ "\n        </DatabaseManager>\n    </Packet>"

/-- xml_mnet_for_zone (g50a.py lines 123-125). -/
def xml_mnet_for_zone (zone_id : String) : String :=
  "<Mnet Group=\"" ++ zone_id
    ++ "\" SetTemp=\"*\" InletTemp=\"*\" Drive=\"*\" Mode=\"*\" FanSpeed=\"*\" AirDirection=\"*\" />"

/-- xml_request_for_zones (g50a.py lines 128-135): concatenated per-zone Mnet
queries for ids 1..no_zones in one envelope. -/
def xml_request_for_zones (command : String) (no_zones : Nat) : String :=
  construct_request_xml command
    (String.join ((List.range no_zones).map (fun i => xml_mnet_for_zone (toString (i + 1)))))

/-- The attributes of one parsed Mnet element, as read off by mnet.get(...):
none models an absent attribute. -/
structure MnetAttrs where
  group : Option String
  setTemp : Option String
  inletTemp : Option String
  drive : Option String
  mode : Option String
  fanSpeed : Option String
  airDirection : Option String
  deriving DecidableEq, Repr

/-- A device response after XML parsing: the number of ERROR elements found by
root.findall(".//ERROR") and the Mnet elements found by root.findall(".//Mnet")
in document order. -/
structure ParsedResponse where
  errors : Nat
  mnets : List MnetAttrs
  deriving DecidableEq, Repr

/-- The keyword arguments accepted by G50Zone.__init__ and update_zone;
none models an absent keyword or a None value. -/
structure ZoneKwargs where
  set_temp : Option String := none
  inlet_temp : Option String := none
  drive : Option String := none
  mode : Option String := none
  fan_speed : Option String := none
  air_direction : Option String := none
  last_updated : Option Nat := none
  deriving DecidableEq, Repr

/-- The G50Zone state record (g50a.py lines 155-228). mode holds str(mode),
so an absent Mode attribute is stored as the literal string "None".
set_temp and inlet_temp are none while the attribute has never been seen. -/
structure G50Zone where
  name : String
  set_temp : Option String
  inlet_temp : Option String
  drive : Option String
  mode : String
  fan_speed : Option String
  air_direction : Option String
  last_updated : Option Nat
  deriving DecidableEq, Repr

/-- G50Zone.__init__ (g50a.py lines 158-172): temperatures are stored only
when supplied; drive, mode, fan_speed, air_direction and last_updated are
taken as given, with mode passed through str(...). -/
def G50Zone.init (name : String) (kw : ZoneKwargs) : G50Zone :=
  { name := name
    set_temp := kw.set_temp
    inlet_temp := kw.inlet_temp
    drive := kw.drive
    mode := pyStr kw.mode
    fan_speed := kw.fan_speed
    air_direction := kw.air_direction
    last_updated := kw.last_updated }

/-- G50Zone.update_zone (g50a.py lines 177-191): same field policy as
__init__, except that an absent temperature keeps the prior value. -/
def G50Zone.update_zone (z : G50Zone) (name : String) (kw : ZoneKwargs) : G50Zone :=
  { name := name
    set_temp := match kw.set_temp with | some s => some s | none => z.set_temp
    inlet_temp := match kw.inlet_temp with | some s => some s | none => z.inlet_temp
    drive := kw.drive
    mode := pyStr kw.mode
    fan_speed := kw.fan_speed
    air_direction := kw.air_direction
    last_updated := kw.last_updated }

/-- G50Zone.set_fan_speed (g50a.py lines 201-203). -/
def G50Zone.set_fan_speed (z : G50Zone) (fan_speed : String) : G50Zone :=
  { z with fan_speed := some fan_speed }

/-- G50Zone.set_air_direction (g50a.py lines 197-199). -/
def G50Zone.set_air_direction (z : G50Zone) (air_direction : String) : G50Zone :=
  { z with air_direction := some air_direction }

/-- The hvac_mode property (g50a.py lines 210-213). -/
def G50Zone.hvac_mode (z : G50Zone) : HVACMode :=
  map_mode_to_hvac_mode z.mode z.drive

/-- The hvac_action property (g50a.py lines 215-218). -/
def G50Zone.hvac_action (z : G50Zone) : HVACAction :=
  map_mode_to_hvac_action z.mode z.drive

/-- The key type of the zones dict. parse_response keys entries by the raw
mnet.get("Group") value (an Option), while enumerate_zones and the command
methods use plain strings, keyed here as some. -/
abbrev ZoneKey := Option String

/-- The zones dict: an association list with Python dict semantics. -/
abbrev ZoneDict := List (ZoneKey × G50Zone)

/-- Python dict lookup zones.get(k); membership k in zones is isSome. -/
def dictFind (d : ZoneDict) (k : ZoneKey) : Option G50Zone :=
  match d with
  | [] => none
  | (k₁, v) :: rest => if k₁ = k then some v else dictFind rest k

/-- Python dict assignment zones[k] = v: replaces the value in place when the
key exists, appends in insertion order otherwise. -/
def dictInsert (d : ZoneDict) (k : ZoneKey) (v : G50Zone) : ZoneDict :=
  match d with
  | [] => [(k, v)]
  | (k₁, v₁) :: rest => if k₁ = k then (k, v) :: rest else (k₁, v₁) :: dictInsert rest k v

/-- The G50Zone constructed from one Mnet element (the identical keyword lists
at g50a.py lines 248-257 and 283-292), with the supplied timestamp. -/
def zoneOfMnet (m : MnetAttrs) (ts : Option Nat) : G50Zone :=
  G50Zone.init (get_zone_name (pyStr m.group))
    { set_temp := m.setTemp
      inlet_temp := m.inletTemp
      drive := m.drive
      mode := m.mode
      fan_speed := m.fanSpeed
      air_direction := m.airDirection
      last_updated := ts }

/-- The inner loop of enumerate_zones (g50a.py lines 246-257): one zone per
Mnet element, keyed by the f-string of its Group attribute, stamped with the
wall clock now. -/
def insertMnets (acc : ZoneDict) (mnets : List MnetAttrs) (now : Nat) : ZoneDict :=
  match mnets with
  | [] => acc
  | m :: rest => insertMnets (dictInsert acc (some (pyStr m.group)) (zoneOfMnet m (some now))) rest now

/-- The probe loop of enumerate_zones (g50a.py lines 234-257) over the listed
zone ids: the first response containing an ERROR element returns the
accumulator immediately; otherwise every Mnet element becomes a zone. -/
def enumerateLoop (device : Nat → ParsedResponse) (now : Nat) : List Nat → ZoneDict → ZoneDict
  | [], acc => acc
  | zone_id :: rest, acc =>
    if (device zone_id).errors > 0 then acc
    else enumerateLoop device now rest (insertMnets acc (device zone_id).mnets now)

/-- The id list range(1, MAX_ZONES + 1) probed by enumerate_zones. -/
def zoneIdRange : List Nat :=
  (List.range MAX_ZONES).map (fun i => i + 1)

/-- enumerate_zones (g50a.py lines 231-258), with the response to the probe
for each zone id given by device and time.time_ns() frozen at now. -/
def enumerate_zones (device : Nat → ParsedResponse) (now : Nat) : ZoneDict :=
  enumerateLoop device now zoneIdRange []

/-- The MitsubishiG50a gateway state (g50a.py lines 261-273). -/
structure MitsubishiG50a where
  hostname : String
  last_updated : Nat
  zones : ZoneDict
  deriving DecidableEq, Repr

/-- MitsubishiG50a.__init__ (g50a.py lines 264-269): last_updated starts at 0. -/
def MitsubishiG50a.init (hostname : String) (zones : ZoneDict) : MitsubishiG50a :=
  { hostname := hostname, last_updated := 0, zones := zones }

/-- The body of parse_response for one Mnet element (g50a.py lines 279-303):
an unknown Group id gets a freshly constructed zone, a known one is updated
in place; both are stamped with the gateway's last_updated. -/
def parseMnet (g : MitsubishiG50a) (m : MnetAttrs) : MitsubishiG50a :=
  match dictFind g.zones m.group with
  | none =>
      { g with zones := dictInsert g.zones m.group (zoneOfMnet m (some g.last_updated)) }
  | some z =>
      let z₁ := z.update_zone (get_zone_name (pyStr m.group))
        { set_temp := m.setTemp
          inlet_temp := m.inletTemp
          drive := m.drive
          mode := m.mode
          fan_speed := m.fanSpeed
          air_direction := m.airDirection
          last_updated := some g.last_updated }
      { g with zones := dictInsert g.zones m.group z₁ }

/-- MitsubishiG50a.parse_response (g50a.py lines 275-303) applied to a parsed
response. -/
def MitsubishiG50a.parse_response (g : MitsubishiG50a) (r : ParsedResponse) : MitsubishiG50a :=
  r.mnets.foldl parseMnet g

/-- MitsubishiG50a.turn_on_off (g50a.py lines 305-315). The first component is
none when the zone lookup raises KeyError; the second lists the request
bodies sent. The doubled quote before the slash in the Mnet element
reproduces the f-string at line 311 byte for byte. -/
def MitsubishiG50a.turn_on_off (g : MitsubishiG50a) (zone_id : String) (on_off : String) :
    Option MitsubishiG50a × List String :=
  let drive := pyUpper on_off
  match dictFind g.zones (some zone_id) with
  | none => (none, [])
  | some z =>
    if z.drive = some drive then (some g, [])
    else
      let mnet_xml := "<Mnet Group=\"" ++ zone_id ++ "\" Drive=\"" ++ drive ++ "\"\"/>"
      let xml_request := construct_request_xml SET_COMMAND mnet_xml
      (some { g with zones := dictInsert g.zones (some zone_id) { z with drive := some drive } },
        [xml_request])

/-- MitsubishiG50a.set_system_mode (g50a.py lines 317-325): builds and sends
one setRequest and touches no local state. -/
def MitsubishiG50a.set_system_mode (g : MitsubishiG50a) (zone_id : String) (hvac_mode : HVACMode) :
    MitsubishiG50a × List String :=
  let new_mode := map_hvac_mode_to_mode hvac_mode
  let mnet_xml :=
    if hvac_mode = HVACMode.off then "<Mnet Group=\"" ++ zone_id ++ "\" Drive=\"OFF\"/>"
    else "<Mnet Group=\"" ++ zone_id ++ "\" Drive=\"ON\" Mode=\"" ++ new_mode ++ "\"/>"
  (g, [construct_request_xml SET_COMMAND mnet_xml])

/-- MitsubishiG50a.set_swing_mode (g50a.py lines 327-334): the request is sent
before the zone lookup, so a missing zone still sends one request and then
raises (first component none). -/
def MitsubishiG50a.set_swing_mode (g : MitsubishiG50a) (zone_id : String) (swing_mode : String) :
    Option MitsubishiG50a × List String :=
  let air_direction := map_swing_to_air_direction swing_mode
  let mnet_xml := "<Mnet Group=\"" ++ zone_id ++ "\" AirDirection=\"" ++ air_direction ++ "\"/>"
  let xml_request := construct_request_xml SET_COMMAND mnet_xml
  match dictFind g.zones (some zone_id) with
  | none => (none, [xml_request])
  | some z =>
    (some { g with zones := dictInsert g.zones (some zone_id) (z.set_air_direction air_direction) },
      [xml_request])

/-- MitsubishiG50a.set_fan_mode (g50a.py lines 336-343). -/
def MitsubishiG50a.set_fan_mode (g : MitsubishiG50a) (zone_id : String) (fan_mode : String) :
    Option MitsubishiG50a × List String :=
  let fan_speed := map_fan_mode_to_fan_speed fan_mode
  let mnet_xml := "<Mnet Group=\"" ++ zone_id ++ "\" FanSpeed=\"" ++ fan_speed ++ "\"/>"
  let xml_request := construct_request_xml SET_COMMAND mnet_xml
  match dictFind g.zones (some zone_id) with
  | none => (none, [xml_request])
  | some z =>
    (some { g with zones := dictInsert g.zones (some zone_id) (z.set_fan_speed fan_speed) },
      [xml_request])

/-- MitsubishiG50a.set_temperature (g50a.py lines 345-351), with the float
target temperature abstracted as its printed decimal form. -/
def MitsubishiG50a.set_temperature (g : MitsubishiG50a) (zone_id : String) (target_temperature : String) :
    Option MitsubishiG50a × List String :=
  let mnet_xml := "<Mnet Group=\"" ++ zone_id ++ "\" SetTemp=\"" ++ target_temperature ++ "\"/>"
  let xml_request := construct_request_xml SET_COMMAND mnet_xml
  match dictFind g.zones (some zone_id) with
  | none => (none, [xml_request])
  | some z =>
    (some { g with zones := dictInsert g.zones (some zone_id) { z with set_temp := some target_temperature } },
      [xml_request])

/-- MitsubishiG50a.update_zones (g50a.py lines 361-372), with time.time_ns()
frozen at now and the device reply to the bulk get given by resp. The second
component counts the requests sent. The staleness variable is now - 0
exactly as at line 363, where self.last_updated sits commented out. -/
def MitsubishiG50a.update_zones (g : MitsubishiG50a) (now : Nat) (resp : ParsedResponse) :
    MitsubishiG50a × Nat :=
  let since := now - 0
  if since > 100000000 then
    let g₁ := { g with last_updated := now }
    (g₁.parse_response resp, 1)
  else (g, 0)

/-- Looking up the key just written by dictInsert yields the written value. -/
lemma dictFind_insert_self (d : ZoneDict) (k : ZoneKey) (v : G50Zone) :
    dictFind (dictInsert d k v) k = some v := by
  induction d with
  | nil => simp [dictInsert, dictFind]
  | cons hd tl ih =>
    obtain ⟨k₁, v₁⟩ := hd
    by_cases h : k₁ = k <;> simp [dictInsert, dictFind, h, ih]

/-- Inserting an absent key appends the new entry, leaving every existing
entry in place. -/
lemma dictInsert_of_find_none (d : ZoneDict) (k : ZoneKey) (v : G50Zone)
    (h : dictFind d k = none) : dictInsert d k v = d ++ [(k, v)] := by
  induction d with
  | nil => simp [dictInsert]
  | cons hd tl ih =>
    obtain ⟨k₁, v₁⟩ := hd
    by_cases hk : k₁ = k
    · simp [dictFind, hk] at h
    · simp [dictFind, hk] at h
      simp [dictInsert, hk, ih h]

/-- A lookup that misses the front of an appended dict falls through to the
back. -/
lemma dictFind_append_of_none (d l : ZoneDict) (k : ZoneKey)
    (h : dictFind d k = none) : dictFind (d ++ l) k = dictFind l k := by
  induction d with
  | nil => simp
  | cons hd tl ih =>
    obtain ⟨k₁, v₁⟩ := hd
    by_cases hk : k₁ = k
    · simp [dictFind, hk] at h
    · simp [dictFind, hk] at h
      simp [dictFind, hk, ih h]

/-- C1 (evidence for the broken staleness gate): two bulk refreshes 50ms
apart, the first at t = 200,000,000ns, each send a request, because line 363
computes the elapsed time as time.time_ns() - 0 with self.last_updated
commented out; the claimed behaviour is that the second call sends none. -/
theorem c1_staleness_gate_never_blocks :
    ((MitsubishiG50a.init "g50a.local" []).update_zones 200000000 { errors := 0, mnets := [] }).2 = 1 ∧
    (((MitsubishiG50a.init "g50a.local" []).update_zones 200000000
        { errors := 0, mnets := [] }).1.update_zones 250000000 { errors := 0, mnets := [] }).2 = 1 ∧
    250000000 - 200000000 < 100000000 := by
  decide

/-- The gateway used as the concrete failing input of C3: one zone "1" whose
drive is currently OFF. -/
def gwC3 : MitsubishiG50a :=
  MitsubishiG50a.init "g50a.local" [(some "1", G50Zone.init "Living Room" { drive := some "OFF" })]

/-- The same gateway with zone "1" already ON. -/
def gwC3on : MitsubishiG50a :=
  MitsubishiG50a.init "g50a.local" [(some "1", G50Zone.init "Living Room" { drive := some "ON" })]

/-- C3 (evidence): turning zone "1" ON from OFF sends exactly one request and
optimistically sets the local drive, but the Mnet element carries a doubled
quote before the slash (line 311), so the body is not the well-formed
element the claim states; when the drive already matches, nothing is sent
and nothing changes. -/
theorem c3_drive_request_has_stray_quote :
    (gwC3.turn_on_off "1" "ON").2
      = [construct_request_xml SET_COMMAND "<Mnet Group=\"1\" Drive=\"ON\"\"/>"] ∧
    "<Mnet Group=\"1\" Drive=\"ON\"\"/>" ≠ "<Mnet Group=\"1\" Drive=\"ON\"/>" ∧
    (gwC3.turn_on_off "1" "ON").1 = some gwC3on ∧
    gwC3on.turn_on_off "1" "ON" = (some gwC3on, []) := by
  decide

/-- The Mnet element and empty gateway used as C6 and C9 concrete inputs. -/
def mnetC6 : MnetAttrs :=
  { group := some "7", setTemp := none, inletTemp := none, drive := some "ON",
    mode := none, fanSpeed := none, airDirection := none }

/-- An empty freshly constructed gateway. -/
def gwEmpty : MitsubishiG50a := MitsubishiG50a.init "g50a.local" []

/-- C4: under update_zone, set_temp and inlet_temp take the supplied value
only when one is present and otherwise keep the prior value, while name,
drive, mode, fan_speed, air_direction and last_updated are overwritten
unconditionally, mode through str(...); and parse_response routes an
existing zone through update_zone with exactly the attributes of the
response element. -/
theorem c4_update_zone_field_policy (z : G50Zone) (name : String) (kw : ZoneKwargs)
    (g : MitsubishiG50a) (m : MnetAttrs) (hz : dictFind g.zones m.group = some z) :
    (z.update_zone name kw).set_temp = kw.set_temp.or z.set_temp ∧
    (z.update_zone name kw).inlet_temp = kw.inlet_temp.or z.inlet_temp ∧
    (z.update_zone name kw).name = name ∧
    (z.update_zone name kw).drive = kw.drive ∧
    (z.update_zone name kw).mode = pyStr kw.mode ∧
    (z.update_zone name kw).fan_speed = kw.fan_speed ∧
    (z.update_zone name kw).air_direction = kw.air_direction ∧
    (z.update_zone name kw).last_updated = kw.last_updated ∧
    dictFind (g.parse_response { errors := 0, mnets := [m] }).zones m.group
      = some (z.update_zone (get_zone_name (pyStr m.group))
          { set_temp := m.setTemp, inlet_temp := m.inletTemp, drive := m.drive, mode := m.mode,
            fan_speed := m.fanSpeed, air_direction := m.airDirection,
            last_updated := some g.last_updated }) := by
  refine ⟨?_, ?_, rfl, rfl, rfl, rfl, rfl, rfl, ?_⟩
  · cases h₁ : kw.set_temp <;> simp [G50Zone.update_zone, h₁, Option.or]
  · cases h₂ : kw.inlet_temp <;> simp [G50Zone.update_zone, h₂, Option.or]
  · simp [MitsubishiG50a.parse_response, parseMnet, hz, dictFind_insert_self]

/-- The zone record used as the C4 witness input. -/
def zoneC4 : G50Zone := G50Zone.init "Zone 7" {}

/-- The one-zone gateway used as the C4 witness input, keyed like mnetC6. -/
def gwC4 : MitsubishiG50a :=
  MitsubishiG50a.init "g50a.local" [(some "7", zoneC4)]

/-- The keyword arguments used as the C4 witness input: only set_temp. -/
def kwC4 : ZoneKwargs := { set_temp := some "20.0" }

/-- The C4 witness gateway holds zoneC4 under the key of mnetC6. -/
lemma gwC4_find : dictFind gwC4.zones mnetC6.group = some zoneC4 := by decide

/-- C4 witness at a concrete zone, kwargs carrying only set_temp, and the
mnetC6 response element. -/
theorem c4_witness :
    (zoneC4.update_zone "Any" kwC4).set_temp = kwC4.set_temp.or zoneC4.set_temp ∧
    (zoneC4.update_zone "Any" kwC4).inlet_temp = kwC4.inlet_temp.or zoneC4.inlet_temp ∧
    (zoneC4.update_zone "Any" kwC4).name = "Any" ∧
    (zoneC4.update_zone "Any" kwC4).drive = kwC4.drive ∧
    (zoneC4.update_zone "Any" kwC4).mode = pyStr kwC4.mode ∧
    (zoneC4.update_zone "Any" kwC4).fan_speed = kwC4.fan_speed ∧
    (zoneC4.update_zone "Any" kwC4).air_direction = kwC4.air_direction ∧
    (zoneC4.update_zone "Any" kwC4).last_updated = kwC4.last_updated ∧
    dictFind (gwC4.parse_response { errors := 0, mnets := [mnetC6] }).zones mnetC6.group
      = some (zoneC4.update_zone (get_zone_name (pyStr mnetC6.group))
          { set_temp := mnetC6.setTemp, inlet_temp := mnetC6.inletTemp, drive := mnetC6.drive,
            mode := mnetC6.mode, fan_speed := mnetC6.fanSpeed,
            air_direction := mnetC6.airDirection,
            last_updated := some gwC4.last_updated }) :=
  c4_update_zone_field_policy zoneC4 "Any" kwC4 gwC4 mnetC6 gwC4_find

/-- C6: a response whose single Mnet element names a Group id absent from
the zones dict makes parse_response append a fresh zone under that id,
built by the static name lookup and the response attributes, with every
pre-existing entry left in place. -/
theorem c6_unknown_zone_id_creates_entry (g : MitsubishiG50a) (m : MnetAttrs)
    (hunknown : dictFind g.zones m.group = none) :
    (g.parse_response { errors := 0, mnets := [m] }).zones
      = g.zones ++ [(m.group, zoneOfMnet m (some g.last_updated))] ∧
    dictFind (g.parse_response { errors := 0, mnets := [m] }).zones m.group
      = some (zoneOfMnet m (some g.last_updated)) ∧
    (zoneOfMnet m (some g.last_updated)).name = get_zone_name (pyStr m.group) := by
  have hz : (g.parse_response { errors := 0, mnets := [m] }).zones
      = g.zones ++ [(m.group, zoneOfMnet m (some g.last_updated))] := by
    simp [MitsubishiG50a.parse_response, parseMnet, hunknown,
      dictInsert_of_find_none _ _ _ hunknown]
  refine ⟨hz, ?_, by simp [zoneOfMnet, G50Zone.init]⟩
  rw [hz, dictFind_append_of_none _ _ _ hunknown]
  simp [dictFind]

/-- C6 witness: a gateway with no zones learns zone "7" from a response. -/
theorem c6_witness :
    (gwEmpty.parse_response { errors := 0, mnets := [mnetC6] }).zones
      = gwEmpty.zones ++ [(mnetC6.group, zoneOfMnet mnetC6 (some gwEmpty.last_updated))] ∧
    dictFind (gwEmpty.parse_response { errors := 0, mnets := [mnetC6] }).zones mnetC6.group
      = some (zoneOfMnet mnetC6 (some gwEmpty.last_updated)) ∧
    (zoneOfMnet mnetC6 (some gwEmpty.last_updated)).name = get_zone_name (pyStr mnetC6.group) :=
  c6_unknown_zone_id_creates_entry gwEmpty mnetC6 rfl

/-- C10: when the Mode attribute is absent, both construction and update
store the literal string "None" as the mode, and with drive "ON" the zone
reads back as HVACMode.off and HVACAction.idle, since "None" matches no
entry of the mode table. -/
theorem c10_absent_mode_stringifies (name : String) (kw : ZoneKwargs) (z : G50Zone)
    (hmode : kw.mode = none) (hdrive : kw.drive = some "ON") :
    (G50Zone.init name kw).mode = "None" ∧
    (G50Zone.init name kw).hvac_mode = HVACMode.off ∧
    (G50Zone.init name kw).hvac_action = HVACAction.idle ∧
    (z.update_zone name kw).mode = "None" ∧
    (z.update_zone name kw).hvac_mode = HVACMode.off ∧
    (z.update_zone name kw).hvac_action = HVACAction.idle := by
  simp [G50Zone.init, G50Zone.update_zone, G50Zone.hvac_mode, G50Zone.hvac_action,
    map_mode_to_hvac_mode, map_mode_to_hvac_action, hmode, hdrive, pyStr]

/-- C10 witness at a concrete zone whose response reported Drive but no Mode. -/
theorem c10_witness :
    (G50Zone.init "Kitchen" { drive := some "ON" }).mode = "None" ∧
    (G50Zone.init "Kitchen" { drive := some "ON" }).hvac_mode = HVACMode.off ∧
    (G50Zone.init "Kitchen" { drive := some "ON" }).hvac_action = HVACAction.idle ∧
    ((G50Zone.init "Hallway" { mode := some "COOL" }).update_zone "Kitchen"
        { drive := some "ON" }).mode = "None" ∧
    ((G50Zone.init "Hallway" { mode := some "COOL" }).update_zone "Kitchen"
        { drive := some "ON" }).hvac_mode = HVACMode.off ∧
    ((G50Zone.init "Hallway" { mode := some "COOL" }).update_zone "Kitchen"
        { drive := some "ON" }).hvac_action = HVACAction.idle :=
  c10_absent_mode_stringifies "Kitchen" { drive := some "ON" }
    (G50Zone.init "Hallway" { mode := some "COOL" }) rfl rfl

/-- C5: set_system_mode leaves the gateway state untouched and sends exactly
one setRequest, a drive-only OFF element for HVACMode.off and a Drive ON
plus mapped Mode element otherwise; by contrast turn_on_off, set_fan_mode,
set_swing_mode and set_temperature all write the commanded value into the
local zone record. -/
theorem c5_set_system_mode_no_local_update (g : MitsubishiG50a)
    (zone_id fan_mode swing_mode temperature : String) (m : HVACMode) (z : G50Zone)
    (hz : dictFind g.zones (some zone_id) = some z) (hdrive : z.drive = some "OFF") :
    (g.set_system_mode zone_id m).1 = g ∧
    (g.set_system_mode zone_id m).2
      = [construct_request_xml SET_COMMAND
          (if m = HVACMode.off then "<Mnet Group=\"" ++ zone_id ++ "\" Drive=\"OFF\"/>"
           else "<Mnet Group=\"" ++ zone_id ++ "\" Drive=\"ON\" Mode=\""
                  ++ map_hvac_mode_to_mode m ++ "\"/>")] ∧
    (g.turn_on_off zone_id "ON").1
      = some { g with zones := dictInsert g.zones (some zone_id) { z with drive := some "ON" } } ∧
    (g.set_fan_mode zone_id fan_mode).1
      = some { g with zones := dictInsert g.zones (some zone_id) (z.set_fan_speed (map_fan_mode_to_fan_speed fan_mode)) } ∧
    (g.set_swing_mode zone_id swing_mode).1
      = some { g with zones := dictInsert g.zones (some zone_id) (z.set_air_direction (map_swing_to_air_direction swing_mode)) } ∧
    (g.set_temperature zone_id temperature).1
      = some { g with zones := dictInsert g.zones (some zone_id) { z with set_temp := some temperature } } := by
  have hup : pyUpper "ON" = "ON" := rfl
  have hneq : z.drive ≠ some "ON" := by rw [hdrive]; decide
  refine ⟨rfl, rfl, ?_, ?_, ?_, ?_⟩
  · simp [MitsubishiG50a.turn_on_off, hz, hup, hneq]
  · simp [MitsubishiG50a.set_fan_mode, hz]
  · simp [MitsubishiG50a.set_swing_mode, hz]
  · simp [MitsubishiG50a.set_temperature, hz]

/-- The zone and gateway used as the C5 concrete inputs. -/
def zoneC5 : G50Zone := G50Zone.init "Living Room" { drive := some "OFF" }

/-- A one-zone gateway whose zone "1" is OFF. -/
def gwC5 : MitsubishiG50a := MitsubishiG50a.init "g50a.local" [(some "1", zoneC5)]

/-- C5 witness at zone "1" of a concrete gateway, commanding HVACMode.cool. -/
theorem c5_witness :
    (gwC5.set_system_mode "1" HVACMode.cool).1 = gwC5 ∧
    (gwC5.set_system_mode "1" HVACMode.cool).2
      = [construct_request_xml SET_COMMAND
          (if HVACMode.cool = HVACMode.off then "<Mnet Group=\"" ++ "1" ++ "\" Drive=\"OFF\"/>"
           else "<Mnet Group=\"" ++ "1" ++ "\" Drive=\"ON\" Mode=\""
                  ++ map_hvac_mode_to_mode HVACMode.cool ++ "\"/>")] ∧
    (gwC5.turn_on_off "1" "ON").1
      = some { gwC5 with zones := dictInsert gwC5.zones (some "1") { zoneC5 with drive := some "ON" } } ∧
    (gwC5.set_fan_mode "1" "medium").1
      = some { gwC5 with zones := dictInsert gwC5.zones (some "1") (zoneC5.set_fan_speed (map_fan_mode_to_fan_speed "medium")) } ∧
    (gwC5.set_swing_mode "1" "on").1
      = some { gwC5 with zones := dictInsert gwC5.zones (some "1") (zoneC5.set_air_direction (map_swing_to_air_direction "on")) } ∧
    (gwC5.set_temperature "1" "21.5").1
      = some { gwC5 with zones := dictInsert gwC5.zones (some "1") { zoneC5 with set_temp := some "21.5" } } :=
  c5_set_system_mode_no_local_update gwC5 "1" "medium" "on" "21.5" HVACMode.cool zoneC5 rfl rfl

/-- C7: for every mode string, a drive of "OFF" forces HVACMode.off out of
map_mode_to_hvac_mode; the drive check takes precedence over the mode table. -/
theorem c7_drive_off_wins (mode : String) :
    map_mode_to_hvac_mode mode (some "OFF") = HVACMode.off := by
  simp [map_mode_to_hvac_mode]

/-- C8: composing map_mode_to_hvac_mode (with drive "ON") with
map_hvac_mode_to_mode is the identity on the four device codes COOL, HEAT,
FAN and DRY; FAN goes through FAN_ONLY; the composition is not the identity
for arbitrary mode strings (AUTO comes back as OFF). -/
theorem c8_roundtrip_on_device_codes :
    map_hvac_mode_to_mode (map_mode_to_hvac_mode "COOL" (some "ON")) = "COOL" ∧
    map_hvac_mode_to_mode (map_mode_to_hvac_mode "HEAT" (some "ON")) = "HEAT" ∧
    map_hvac_mode_to_mode (map_mode_to_hvac_mode "FAN" (some "ON")) = "FAN" ∧
    map_hvac_mode_to_mode (map_mode_to_hvac_mode "DRY" (some "ON")) = "DRY" ∧
    map_mode_to_hvac_mode "FAN" (some "ON") = HVACMode.fan_only ∧
    map_hvac_mode_to_mode (map_mode_to_hvac_mode "AUTO" (some "ON")) ≠ "AUTO" := by
  decide

/-- The first Mnet element of a response (defaulting to an attribute-free
element, used only when a response is known to hold exactly one element). -/
def firstMnet (r : ParsedResponse) : MnetAttrs :=
  r.mnets.headD
    { group := none, setTemp := none, inletTemp := none, drive := none,
      mode := none, fanSpeed := none, airDirection := none }

/-- A probe response with no error marker and exactly one Mnet element whose
Group equals the probed id. -/
abbrev cleanProbe (device : Nat → ParsedResponse) (i : Nat) : Prop :=
  (device i).errors = 0 ∧ (device i).mnets.map MnetAttrs.group = [some (toString i)]

/-- A one-element image under the Group projection comes from a one-element
Mnet list. -/
lemma mnets_single {l : List MnetAttrs} {a : Option String}
    (h : l.map MnetAttrs.group = [a]) : ∃ m, l = [m] ∧ m.group = a := by
  cases l with
  | nil => simp at h
  | cons m rest =>
    cases rest with
    | nil =>
      simp at h
      exact ⟨m, rfl, h⟩
    | cons m₂ r₂ => simp at h

/-- The effect of dictInsert on the key list alone. -/
def insertKey (ks : List ZoneKey) (k : ZoneKey) : List ZoneKey :=
  match ks with
  | [] => [k]
  | k₁ :: rest => if k₁ = k then k :: rest else k₁ :: insertKey rest k

/-- The keys of a dict after dictInsert depend only on the prior keys. -/
lemma keysOf_dictInsert (d : ZoneDict) (k : ZoneKey) (v : G50Zone) :
    (dictInsert d k v).map Prod.fst = insertKey (d.map Prod.fst) k := by
  induction d with
  | nil => simp [dictInsert, insertKey]
  | cons hd tl ih =>
    obtain ⟨k₁, v₁⟩ := hd
    by_cases h : k₁ = k <;> simp [dictInsert, insertKey, h, ih]

/-- A probe response carrying an error marker returns the accumulator at once. -/
lemma loop_error_step (device : Nat → ParsedResponse) (now i : Nat)
    {rest : List Nat} {acc : ZoneDict} (h : 0 < (device i).errors) :
    enumerateLoop device now (i :: rest) acc = acc := by
  simp [enumerateLoop, h]

/-- A clean probe for id i adds exactly the zone keyed by the string of i and
continues with the remaining ids. -/
lemma loop_clean_step (device : Nat → ParsedResponse) (now i : Nat)
    {rest : List Nat} {acc : ZoneDict} (h : cleanProbe device i) :
    enumerateLoop device now (i :: rest) acc
      = enumerateLoop device now rest
          (dictInsert acc (some (toString i)) (zoneOfMnet (firstMnet (device i)) (some now))) := by
  obtain ⟨m, hm, hg⟩ := mnets_single h.2
  have h0 : ¬ 0 < (device i).errors := by simp [h.1]
  have hfm : firstMnet (device i) = m := by simp [firstMnet, hm]
  simp only [enumerateLoop]
  rw [if_neg h0, hm]
  simp [insertMnets, hg, hfm, pyStr]

/-- zoneIdRange written out. -/
lemma zoneIdRange_eq : zoneIdRange = [1, 2, 3, 4, 5, 6, 7, 8, 9, 10] := by
  decide

/-- C2: probing a device that answers ids below k with a single matching Mnet
element and signals an error at id k (1 ≤ k ≤ 10) enumerates exactly the
zones keyed "1" .. "k-1"; a device that stays clean through id 10 yields the
zones keyed "1" .. "10". -/
theorem c2_enumerate_zones (device : Nat → ParsedResponse) (now : Nat) :
    (∀ k, 1 ≤ k → k ≤ MAX_ZONES →
        (∀ i, i < k → 1 ≤ i → cleanProbe device i) →
        0 < (device k).errors →
        (enumerate_zones device now).map Prod.fst
          = (List.range (k - 1)).map (fun i => some (toString (i + 1)))) ∧
    ((∀ i, i ≤ MAX_ZONES → 1 ≤ i → cleanProbe device i) →
      (enumerate_zones device now).map Prod.fst
        = (List.range MAX_ZONES).map (fun i => some (toString (i + 1)))) := by
  constructor
  · intro k hk1 hkM hclean herr
    have hk10 : k ≤ 10 := hkM
    unfold enumerate_zones
    rw [zoneIdRange_eq]
    interval_cases k
    · rw [loop_error_step device now 1 herr]
      decide
    · rw [loop_clean_step device now 1 (hclean 1 (by decide) (by decide)),
        loop_error_step device now 2 herr]
      simp only [keysOf_dictInsert, List.map_nil]
      decide
    · rw [loop_clean_step device now 1 (hclean 1 (by decide) (by decide)),
        loop_clean_step device now 2 (hclean 2 (by decide) (by decide)),
        loop_error_step device now 3 herr]
      simp only [keysOf_dictInsert, List.map_nil]
      decide
    · rw [loop_clean_step device now 1 (hclean 1 (by decide) (by decide)),
        loop_clean_step device now 2 (hclean 2 (by decide) (by decide)),
        loop_clean_step device now 3 (hclean 3 (by decide) (by decide)),
        loop_error_step device now 4 herr]
      simp only [keysOf_dictInsert, List.map_nil]
      decide
    · rw [loop_clean_step device now 1 (hclean 1 (by decide) (by decide)),
        loop_clean_step device now 2 (hclean 2 (by decide) (by decide)),
        loop_clean_step device now 3 (hclean 3 (by decide) (by decide)),
        loop_clean_step device now 4 (hclean 4 (by decide) (by decide)),
        loop_error_step device now 5 herr]
      simp only [keysOf_dictInsert, List.map_nil]
      decide
    · rw [loop_clean_step device now 1 (hclean 1 (by decide) (by decide)),
        loop_clean_step device now 2 (hclean 2 (by decide) (by decide)),
        loop_clean_step device now 3 (hclean 3 (by decide) (by decide)),
        loop_clean_step device now 4 (hclean 4 (by decide) (by decide)),
        loop_clean_step device now 5 (hclean 5 (by decide) (by decide)),
        loop_error_step device now 6 herr]
      simp only [keysOf_dictInsert, List.map_nil]
      decide
    · rw [loop_clean_step device now 1 (hclean 1 (by decide) (by decide)),
        loop_clean_step device now 2 (hclean 2 (by decide) (by decide)),
        loop_clean_step device now 3 (hclean 3 (by decide) (by decide)),
        loop_clean_step device now 4 (hclean 4 (by decide) (by decide)),
        loop_clean_step device now 5 (hclean 5 (by decide) (by decide)),
        loop_clean_step device now 6 (hclean 6 (by decide) (by decide)),
        loop_error_step device now 7 herr]
      simp only [keysOf_dictInsert, List.map_nil]
      decide
    · rw [loop_clean_step device now 1 (hclean 1 (by decide) (by decide)),
        loop_clean_step device now 2 (hclean 2 (by decide) (by decide)),
        loop_clean_step device now 3 (hclean 3 (by decide) (by decide)),
        loop_clean_step device now 4 (hclean 4 (by decide) (by decide)),
        loop_clean_step device now 5 (hclean 5 (by decide) (by decide)),
        loop_clean_step device now 6 (hclean 6 (by decide) (by decide)),
        loop_clean_step device now 7 (hclean 7 (by decide) (by decide)),
        loop_error_step device now 8 herr]
      simp only [keysOf_dictInsert, List.map_nil]
      decide
    · rw [loop_clean_step device now 1 (hclean 1 (by decide) (by decide)),
        loop_clean_step device now 2 (hclean 2 (by decide) (by decide)),
        loop_clean_step device now 3 (hclean 3 (by decide) (by decide)),
        loop_clean_step device now 4 (hclean 4 (by decide) (by decide)),
        loop_clean_step device now 5 (hclean 5 (by decide) (by decide)),
        loop_clean_step device now 6 (hclean 6 (by decide) (by decide)),
        loop_clean_step device now 7 (hclean 7 (by decide) (by decide)),
        loop_clean_step device now 8 (hclean 8 (by decide) (by decide)),
        loop_error_step device now 9 herr]
      simp only [keysOf_dictInsert, List.map_nil]
      decide
    · rw [loop_clean_step device now 1 (hclean 1 (by decide) (by decide)),
        loop_clean_step device now 2 (hclean 2 (by decide) (by decide)),
        loop_clean_step device now 3 (hclean 3 (by decide) (by decide)),
        loop_clean_step device now 4 (hclean 4 (by decide) (by decide)),
        loop_clean_step device now 5 (hclean 5 (by decide) (by decide)),
        loop_clean_step device now 6 (hclean 6 (by decide) (by decide)),
        loop_clean_step device now 7 (hclean 7 (by decide) (by decide)),
        loop_clean_step device now 8 (hclean 8 (by decide) (by decide)),
        loop_clean_step device now 9 (hclean 9 (by decide) (by decide)),
        loop_error_step device now 10 herr]
      simp only [keysOf_dictInsert, List.map_nil]
      decide
  · intro hclean
    unfold enumerate_zones
    rw [zoneIdRange_eq]
    rw [loop_clean_step device now 1 (hclean 1 (by decide) (by decide)),
      loop_clean_step device now 2 (hclean 2 (by decide) (by decide)),
      loop_clean_step device now 3 (hclean 3 (by decide) (by decide)),
      loop_clean_step device now 4 (hclean 4 (by decide) (by decide)),
      loop_clean_step device now 5 (hclean 5 (by decide) (by decide)),
      loop_clean_step device now 6 (hclean 6 (by decide) (by decide)),
      loop_clean_step device now 7 (hclean 7 (by decide) (by decide)),
      loop_clean_step device now 8 (hclean 8 (by decide) (by decide)),
      loop_clean_step device now 9 (hclean 9 (by decide) (by decide)),
      loop_clean_step device now 10 (hclean 10 (by decide) (by decide))]
    simp only [enumerateLoop, keysOf_dictInsert, List.map_nil]
    decide

/-- The concrete three-zone device used as the C2 witness input: ids 1..3
answer with one matching Mnet element, id 4 answers with an error marker. -/
def devC2 : Nat → ParsedResponse := fun i =>
  if i ≤ 3 then
    { errors := 0,
      mnets := [{ group := some (toString i), setTemp := some "22.0", inletTemp := some "21.5", drive := some "ON", mode := some "COOL", fanSpeed := some "MID1", airDirection := some "SWING" }] }
  else { errors := 1, mnets := [] }

/-- C2 witness: the three-zone device enumerates exactly zones "1" "2" "3". -/
theorem c2_witness :
    (enumerate_zones devC2 0).map Prod.fst
      = (List.range (4 - 1)).map (fun i => some (toString (i + 1))) :=
  (c2_enumerate_zones devC2 0).1 4 (by decide) (by decide) (by decide) (by decide)

/-- The entry predicate of C9: a zone record stamped with the given
timestamp. -/
def lastUpdatedIs (ts : Option Nat) (e : ZoneKey × G50Zone) : Bool :=
  e.2.last_updated == ts

/-- dictInsert preserves a boolean entry invariant satisfied by the new
entry. -/
lemma listAll_dictInsert (p : ZoneKey × G50Zone → Bool) (d : ZoneDict) (k : ZoneKey)
    (v : G50Zone) (hd : d.all p = true) (hv : p (k, v) = true) :
    (dictInsert d k v).all p = true := by
  induction d with
  | nil => simp [dictInsert, hv]
  | cons hd₁ tl ih =>
    obtain ⟨k₁, v₁⟩ := hd₁
    rw [List.all_cons, Bool.and_eq_true] at hd
    by_cases h : k₁ = k
    · simp only [dictInsert, if_pos h]
      rw [List.all_cons, Bool.and_eq_true]
      exact ⟨hv, hd.2⟩
    · simp only [dictInsert, if_neg h]
      rw [List.all_cons, Bool.and_eq_true]
      exact ⟨hd.1, ih hd.2⟩

/-- The enumeration inner loop preserves an entry invariant satisfied by
every zone it constructs. -/
lemma insertMnets_all (now : Nat) (p : ZoneKey × G50Zone → Bool)
    (hp : ∀ m : MnetAttrs, p (some (pyStr m.group), zoneOfMnet m (some now)) = true) :
    ∀ (mnets : List MnetAttrs) (acc : ZoneDict),
      acc.all p = true → (insertMnets acc mnets now).all p = true := by
  intro mnets
  induction mnets with
  | nil =>
    intro acc h
    simpa [insertMnets] using h
  | cons m rest ih =>
    intro acc h
    simp only [insertMnets]
    exact ih _ (listAll_dictInsert p acc _ _ h (hp m))

/-- The probe loop preserves an entry invariant satisfied by every zone it
constructs. -/
lemma enumerateLoop_all (device : Nat → ParsedResponse) (now : Nat)
    (p : ZoneKey × G50Zone → Bool)
    (hp : ∀ m : MnetAttrs, p (some (pyStr m.group), zoneOfMnet m (some now)) = true) :
    ∀ (l : List Nat) (acc : ZoneDict),
      acc.all p = true → (enumerateLoop device now l acc).all p = true := by
  intro l
  induction l with
  | nil =>
    intro acc h
    simpa [enumerateLoop] using h
  | cons i rest ih =>
    intro acc h
    simp only [enumerateLoop]
    by_cases he : (device i).errors > 0
    · rw [if_pos he]
      exact h
    · rw [if_neg he]
      exact ih _ (insertMnets_all now p hp _ _ h)

/-- C9: a zone created lazily by parse_response is stamped with the current
gateway last_updated (0 on a freshly constructed gateway), while every zone
created by enumerate_zones is stamped with the wall-clock now of the
enumeration. -/
theorem c9_lazy_zone_timestamp (g : MitsubishiG50a) (m : MnetAttrs)
    (hunknown : dictFind g.zones m.group = none)
    (hostname : String) (zs : ZoneDict) (device : Nat → ParsedResponse) (now : Nat) :
    (MitsubishiG50a.init hostname zs).last_updated = 0 ∧
    (g.parse_response { errors := 0, mnets := [m] }).zones
      = g.zones ++ [(m.group, zoneOfMnet m (some g.last_updated))] ∧
    (zoneOfMnet m (some g.last_updated)).last_updated = some g.last_updated ∧
    (enumerate_zones device now).all (lastUpdatedIs (some now)) = true := by
  refine ⟨rfl, ?_, by simp [zoneOfMnet, G50Zone.init], ?_⟩
  · simp [MitsubishiG50a.parse_response, parseMnet, hunknown,
      dictInsert_of_find_none _ _ _ hunknown]
  · exact enumerateLoop_all device now (lastUpdatedIs (some now))
      (fun m₁ => by simp [lastUpdatedIs, zoneOfMnet, G50Zone.init]) zoneIdRange [] rfl

/-- The single-zone device used as the C9 witness input. -/
def devC9 : Nat → ParsedResponse := fun i =>
  if i = 1 then { errors := 0, mnets := [mnetC6] } else { errors := 1, mnets := [] }

/-- C9 witness: the empty gateway learns zone "7" stamped with last_updated 0,
while enumeration against a one-zone device stamps its zone with now = 12345. -/
theorem c9_witness :
    (MitsubishiG50a.init "other.host" []).last_updated = 0 ∧
    (gwEmpty.parse_response { errors := 0, mnets := [mnetC6] }).zones
      = gwEmpty.zones ++ [(mnetC6.group, zoneOfMnet mnetC6 (some gwEmpty.last_updated))] ∧
    (zoneOfMnet mnetC6 (some gwEmpty.last_updated)).last_updated = some gwEmpty.last_updated ∧
    (enumerate_zones devC9 12345).all (lastUpdatedIs (some 12345)) = true :=
  c9_lazy_zone_timestamp gwEmpty mnetC6 rfl "other.host" [] devC9 12345

end G50A
